import Mathlib

/-!
Verification development for the BTRC-QoS-D-V4 dashboard frontend.

Shallow embedding of the relevant JavaScript modules:
- src/btrc-frontend/src/hooks/useMetabaseCard.js  (cache key derivation)
- src/btrc-frontend/src/hooks/useDrillData.js     (drill state machine, name maps,
  per-level fetch parameter merging, cancellation flag)
- src/btrc-frontend/src/contexts/FilterContext.jsx (filter state, active params,
  URL round-trip)
- the DrillDownMap component variants               (choropleth colour scales)

Conventions of the embedding:
- JavaScript objects whose key set is fixed by the code are structures with
  Option-typed fields (none = key absent / value null or undefined).
- JavaScript objects used as open string-keyed records (query result rows,
  choropleth data maps) are association lists in insertion order.
- Numbers are ℚ; machine floats do not occur in any verified property except
  through monotone operations, noted where relevant.
- Truthiness of a string is non-emptiness; truthiness of a number is being
  non-zero (NaN does not arise in the modelled paths).
-/

-- ════════════════════════════════════════════════════════════════════════════
-- §1  useMetabaseCard.js — cache key derivation
-- ════════════════════════════════════════════════════════════════════════════

/-- A parameter object as passed to a Metabase card fetch, in insertion order:
a list of (key, value) pairs of strings.  All call sites pass string values
(division and district names, ISP names, ISO date strings). -/
abbrev ParamObj : Type := List (String × String)

/-- JSON.stringify of a parameter object: keys are serialized in insertion
order.  Values at the call sites are plain names and ISO dates, which JSON
emits verbatim between quotes (no escape sequences needed). -/
def jsonStringifyParams (ps : ParamObj) : String :=
  "\x7b" ++
    String.intercalate ","
      (ps.map (fun kv => "\"" ++ kv.1 ++ "\":\"" ++ kv.2 ++ "\"")) ++
  "\x7d"

/-- useMetabaseCard.js line 40:
the cache key is the template string of cardId, a colon, and
JSON.stringify of the params object. -/
def toKey (cardId : Nat) (params : ParamObj) : String :=
  toString cardId ++ ":" ++ jsonStringifyParams params

-- ════════════════════════════════════════════════════════════════════════════
-- §2  useDrillData.js — DB name to GeoJSON name mapping
-- ════════════════════════════════════════════════════════════════════════════

/-- useDrillData.js lines 38-42: the DIST_DB_TO_GEO object, in source order.
Keys are DB district names, values are GeoJSON shapeName values. -/
def DIST_DB_TO_GEO : List (String × String) :=
  [("Bogura", "Bogra"), ("Brahmanbaria", "Brahamanbaria"),
   ("Chapainawabganj", "Nawabganj"), ("Chattogram", "Chittagong"),
   ("Coxsbazar", "Cox\x27s Bazar"), ("Jashore", "Jessore"),
   ("Jhalakathi", "Jhalokati"), ("Moulvibazar", "Maulvibazar"),
   ("Netrokona", "Netrakona")]

/-- Division DB names match GeoJSON NAME_1 exactly (useDrillData.js line 44). -/
def toGeoDiv (n : String) : String := n

/-- useDrillData.js line 45: DIST_DB_TO_GEO[n] || n.
Object property lookup followed by JS truthiness fallback. -/
def toGeoDist (n : String) : String :=
  match DIST_DB_TO_GEO.find? (fun kv => kv.1 = n) with
  | some kv => if kv.2 = "" then n else kv.2
  | none => n

/-- useDrillData.js line 46: identity on division names. -/
def toDbDiv (n : String) : String := n

/-- useDrillData.js line 47:
Object.entries(DIST_DB_TO_GEO).find(([, v]) => v === n)?.[0] || n. -/
def toDbDist (g : String) : String :=
  match DIST_DB_TO_GEO.find? (fun kv => kv.2 = g) with
  | some kv => if kv.1 = "" then g else kv.1
  | none => g

/-- The DB-side names of the mapping table (object keys). -/
def distDbNames : List String := DIST_DB_TO_GEO.map Prod.fst

/-- The GeoJSON-side names of the mapping table (object values). -/
def distGeoNames : List String := DIST_DB_TO_GEO.map Prod.snd

-- ════════════════════════════════════════════════════════════════════════════
-- §3  useDrillData.js — fetch parameters per drill level
-- ════════════════════════════════════════════════════════════════════════════

/-- The card query parameter object as built by useDrillData.js.  Its key set
is fixed to the five global filter keys; none means the key is absent. -/
structure Params where
  isp        : Option String
  start_date : Option String
  end_date   : Option String
  division   : Option String
  district   : Option String
deriving DecidableEq, Repr

/-- The empty parameter object. -/
def Params.empty : Params := ⟨none, none, none, none, none⟩

/-- JS truthiness of an optional string: present and non-empty. -/
def jsTruthyOpt : Option String → Bool
  | some s => s ≠ ""
  | none => false

/-- Keep a field only when truthy (the pattern if (x) p.k = x). -/
def keepTruthy (o : Option String) : Option String :=
  if jsTruthyOpt o then o else none

/-- useDrillData.js lines 126-142: the filterParams memo copies each truthy
field of the global activeParams object into a fresh object p, in the source
key order isp, start_date, end_date, division, district. -/
def filterParamsOf (activeParams : Params) : Params :=
  { isp        := keepTruthy activeParams.isp
    start_date := keepTruthy activeParams.start_date
    end_date   := keepTruthy activeParams.end_date
    division   := keepTruthy activeParams.division
    district   := keepTruthy activeParams.district }

/-- useDrillData.js line 173: national level strips district from
filterParams by object destructuring (card 65 has no district parameter). -/
def card65Params (fp : Params) : Params :=
  { fp with district := none }

/-- useDrillData.js lines 179-180: division level spreads filterParams, then
overrides division with the drill-selected division (mapped to its DB name)
and deletes the district key. -/
def divisionLevelParams (fp : Params) (selDiv : String) : Params :=
  { fp with division := some (toDbDiv selDiv), district := none }

/-- useDrillData.js lines 194-198: district level spreads filterParams, then
overrides both division and district with the drill-selected names mapped to
their DB forms. -/
def districtLevelParams (fp : Params) (selDiv selDist : String) : Params :=
  { fp with division := some (toDbDiv selDiv),
            district := some (toDbDist selDist) }

/-- Modelled from the spec (claim C4 wording): the global filter parameters
overlaid by the drill-selected division/district — a drill value overrides the
same key, an absent drill value leaves the global value in place.  This is the
reference semantics the code is compared against; it is not code of the
repository. -/
def overlayDrillParams (fp : Params) (dv dt : Option String) : Params :=
  { fp with
      division := match dv with
                  | some d => some (toDbDiv d)
                  | none => fp.division
      district := match dt with
                  | some t => some (toDbDist t)
                  | none => fp.district }

-- ════════════════════════════════════════════════════════════════════════════
-- §4  useDrillData.js — parsed result rows and data builders
-- ════════════════════════════════════════════════════════════════════════════

/-- A JavaScript scalar as it occurs in a parsed result row. -/
inductive JVal where
  | str  (s : String)
  | num  (q : ℚ)
  | null
deriving DecidableEq, Repr

/-- JS truthiness of a row value.  (NaN does not occur in the modelled data
paths: DB counts and coordinates are finite numbers.) -/
def JVal.truthy : JVal → Bool
  | .str s => s ≠ ""
  | .num q => q ≠ 0
  | .null  => false

/-- JS a || b on row values. -/
def jsOr (a b : JVal) : JVal := if a.truthy then a else b

/-- A parsed result row: string-keyed record in insertion order
(the output shape of parseRows). -/
abbrev Row : Type := List (String × JVal)

/-- Property read r.k on a row: the value, or undefined (null) when absent. -/
def jsGet (r : Row) (k : String) : JVal :=
  match r.find? (fun kv => kv.1 = k) with
  | some kv => kv.2
  | none => .null

/-- Parse a decimal natural from a string of digits. -/
def digitsToNat (cs : List Char) : Nat :=
  cs.foldl (fun acc c => acc * 10 + (c.toNat - 48)) 0

/-- JS Number(x) as used at the build sites.  Number of a numeric value is
itself, of null 0; a string of digits parses as a decimal (the DB delivers
counts as numbers, so the string branch is not hit by the verified paths; a
non-numeric string, NaN in JS, is modelled as 0). -/
def jsToNumber : JVal → ℚ
  | .num q => q
  | .null => 0
  | .str s =>
    if s ≠ "" ∧ s.data.all Char.isDigit then (digitsToNat s.data : ℚ) else 0

/-- String coercion of a row value used as an object key.  Keys in the data
are DB names (strings); an integral number stringifies to its digits. -/
def jsKeyString : JVal → String
  | .str s => s
  | .num q => if q.den = 1 then toString q.num else toString q
  | .null => "null"

/-- The per-area severity record stored in divisionData / districtData. -/
structure SevCounts where
  total    : ℚ
  critical : ℚ
  high     : ℚ
  medium   : ℚ
  low      : ℚ
deriving DecidableEq, Repr

/-- Choropleth data object: geoName → severity counts, insertion ordered. -/
abbrev GeoMap : Type := List (String × SevCounts)

/-- JS object property assignment d[k] = v: replace in place when the key
exists, append otherwise. -/
def objSet (d : List (String × SevCounts)) (k : String) (v : SevCounts) :
    List (String × SevCounts) :=
  if d.any (fun kv => kv.1 = k) then
    d.map (fun kv => if kv.1 = k then (k, v) else kv)
  else d ++ [(k, v)]

/-- The severity record built from one row (Number(r.f || 0) per field). -/
def sevOfRow (r : Row) : SevCounts :=
  { total    := jsToNumber (jsOr (jsGet r "total")    (.num 0))
    critical := jsToNumber (jsOr (jsGet r "critical") (.num 0))
    high     := jsToNumber (jsOr (jsGet r "high")     (.num 0))
    medium   := jsToNumber (jsOr (jsGet r "medium")   (.num 0))
    low      := jsToNumber (jsOr (jsGet r "low")      (.num 0)) }

/-- useDrillData.js lines 65-78: buildDivisionData.
geoName = r.division || r.name_en || totally empty; rows with a falsy
geoName are skipped. -/
def buildDivisionData (rows : List Row) : GeoMap :=
  rows.foldl
    (fun d r =>
      let g := jsOr (jsOr (jsGet r "division") (jsGet r "name_en")) (.str "")
      if g.truthy then objSet d (jsKeyString g) (sevOfRow r) else d)
    []

/-- useDrillData.js lines 81-94: buildDistrictData.  Same as
buildDivisionData but reads r.district and maps through toGeoDist. -/
def buildDistrictData (rows : List Row) : GeoMap :=
  rows.foldl
    (fun d r =>
      let g := toGeoDist
        (jsKeyString (jsOr (jsOr (jsGet r "district") (jsGet r "name_en")) (.str "")))
      if g ≠ "" then objSet d g (sevOfRow r) else d)
    []

/-- JS object spread override: existing keys keep their position with the new
value, fresh keys are appended. -/
def rowSet (r : Row) (k : String) (v : JVal) : Row :=
  if r.any (fun kv => kv.1 = k) then
    r.map (fun kv => if kv.1 = k then (k, v) else kv)
  else r ++ [(k, v)]

/-- useDrillData.js lines 104-114: keep rows with truthy coordinates and
coerce the numeric fields. -/
def normalisePopRows (rows : List Row) : List Row :=
  (rows.filter (fun r => (jsGet r "latitude").truthy && (jsGet r "longitude").truthy)).map
    (fun r =>
      rowSet
        (rowSet
          (rowSet
            (rowSet r "violations" (.num (jsToNumber (jsOr (jsGet r "violations") (.num 0)))))
            "critical" (.num (jsToNumber (jsOr (jsGet r "critical") (.num 0)))))
          "latitude" (.num (jsToNumber (jsGet r "latitude"))))
        "longitude" (.num (jsToNumber (jsGet r "longitude"))))

-- ════════════════════════════════════════════════════════════════════════════
-- §5  useDrillData.js — drill state machine with cancellation flag
-- ════════════════════════════════════════════════════════════════════════════

/-- The three drill levels of the hook. -/
inductive Level where
  | national
  | division
  | district
deriving DecidableEq, Repr

/-- The four Metabase cards used by useDrillData (their numeric ids live in
metabase_cards.json, configuration outside the frontend source). -/
inductive CardId where
  | REG_R2_DIV_VIOLATIONS
  | REG_R2_DIST_VIOLATIONS
  | REG_R2_POP_MARKERS
  | REG_R2_ISP_BY_AREA
deriving DecidableEq, Repr

/-- useDrillData.js lines 97-101, the guard of fetchCard: a missing (or zero,
hence falsy) card id rejects with the not-configured error before any network
request is made. -/
def fetchCardGuard (cardId : Option Nat) : Except String Unit :=
  if cardId.getD 0 = 0 then
    .error "Card ID not configured — run setup_metabase.py first"
  else .ok ()

/-- The complete state of the useDrillData hook.

Fields level, selectedDiv, selectedDist, divisionData, districtData,
popMarkers, ispData, loading, error mirror the useState cells of the hook
(lines 145-156).  filterParams is the memoised global-filter object that the
hook receives from FilterContext (lines 126-142).

epoch counts effect executions: the effect (lines 162-217) re-runs exactly
when its dependency tuple (level, selectedDiv, selectedDist, filterKey)
changes, and the cleanup of the previous run sets its closure flag
cancelled = true at that moment.  Hence a fetch continuation belonging to run
e is cancelled precisely when e differs from the newest run, which the model
expresses as e ≠ epoch.  requests is the batch of (card, params) fetches
issued by the newest effect run. -/
structure DrillState where
  level        : Level
  selectedDiv  : Option String
  selectedDist : Option String
  divisionData : GeoMap
  districtData : GeoMap
  popMarkers   : List Row
  ispData      : List Row
  loading      : Bool
  error        : Option String
  epoch        : Nat
  requests     : List (CardId × Params)
  filterParams : Params
deriving DecidableEq, Repr

/-- The effect dependency tuple [level, selectedDiv, selectedDist, filterKey]
(line 217).  filterKey is JSON.stringify of filterParams, which on the fixed
five-key object distinguishes exactly the structurally different values, so
the structural tuple is used. -/
def depsOf (s : DrillState) : Level × Option String × Option String × Params :=
  (s.level, s.selectedDiv, s.selectedDist, s.filterParams)

/-- The fetch batch the effect issues for the current state (lines 169-207):
national → division-violations with district stripped; division (with a
truthy selection) → district-violations, PoP markers, ISP table, all scoped
to the selected division; district (with truthy selections) → PoP markers
and ISP table scoped to division and district; any other combination takes
no branch and issues nothing. -/
def effectRequests (s : DrillState) : List (CardId × Params) :=
  match s.level with
  | .national => [(.REG_R2_DIV_VIOLATIONS, card65Params s.filterParams)]
  | .division =>
    match s.selectedDiv with
    | some d =>
      if d = "" then []
      else
        [(.REG_R2_DIST_VIOLATIONS, divisionLevelParams s.filterParams d),
         (.REG_R2_POP_MARKERS,     divisionLevelParams s.filterParams d),
         (.REG_R2_ISP_BY_AREA,     divisionLevelParams s.filterParams d)]
    | none => []
  | .district =>
    match s.selectedDiv, s.selectedDist with
    | some d, some t =>
      if d = "" ∨ t = "" then []
      else
        [(.REG_R2_POP_MARKERS, districtLevelParams s.filterParams d t),
         (.REG_R2_ISP_BY_AREA, districtLevelParams s.filterParams d t)]
    | _, _ => []

/-- One execution of the effect body up to its first await (lines 165-168):
setLoading(true), setError(null), the branch chooses its fetch batch, and a
branch that issues no fetch falls through to the synchronous finally which
sets loading back to false.  A new run supersedes all older ones: epoch is
bumped. -/
def runEffect (s : DrillState) : DrillState :=
  let reqs := effectRequests s
  { s with epoch := s.epoch + 1,
           error := none,
           requests := reqs,
           loading := !reqs.isEmpty }

/-- The state-changing inputs of the hook: the three drill actions, the reset
action (lines 221-262) and a change of the global filter parameters coming
from FilterContext. -/
inductive DrillAction where
  | drillToDiv  (geoName : String)
  | drillToDist (geoDistName : String)
  | drillUp
  | resetDrill
  | filterChange (fp : Params)
deriving DecidableEq, Repr

/-- The synchronous state writes of each action, before the effect re-runs. -/
def applyAction (s : DrillState) : DrillAction → DrillState
  | .drillToDiv g =>
    { s with loading := true, selectedDiv := some g, selectedDist := none,
             level := .division, districtData := [], popMarkers := [],
             ispData := [] }
  | .drillToDist g =>
    { s with loading := true, selectedDist := some g, level := .district,
             popMarkers := [], ispData := [] }
  | .drillUp =>
    match s.level with
    | .district =>
      { s with loading := true, level := .division, selectedDist := none }
    | .division =>
      { s with level := .national, selectedDiv := none, selectedDist := none,
               districtData := [], popMarkers := [], ispData := [] }
    | .national => s
  | .resetDrill =>
    { s with level := .national, selectedDiv := none, selectedDist := none,
             districtData := [], popMarkers := [], ispData := [] }
  | .filterChange fp => { s with filterParams := fp }

/-- Resolution of the fetch batch of effect run tag: either the joined
Promise.all row lists (in batch order) or a rejection message.  The writes
(lines 175, 186-190, 203-206, 209, 211) are all guarded by the cancellation
flag: a resolution whose run is not the newest run is ignored entirely.
When tag is the newest run, no dependency has changed since the run started,
so the level/selection read now equal those the branch was chosen with. -/
def applyResolve (s : DrillState) (tag : Nat)
    (out : Except String (List (List Row))) : DrillState :=
  if tag = s.epoch then
    match out with
    | .error msg =>
      { s with error := some (if msg = "" then "Failed to load map data" else msg),
               loading := false }
    | .ok rs =>
      match s.level with
      | .national =>
        { s with divisionData := buildDivisionData (rs.getD 0 []),
                 loading := false }
      | .division =>
        { s with districtData := buildDistrictData (rs.getD 0 []),
                 popMarkers := normalisePopRows (rs.getD 1 []),
                 ispData := rs.getD 2 [],
                 loading := false }
      | .district =>
        { s with popMarkers := normalisePopRows (rs.getD 0 []),
                 ispData := rs.getD 1 [],
                 loading := false }
  else s

/-- An observable event of the hook: a state-changing action (after which
React re-renders and re-runs the effect when its dependencies changed), or
the asynchronous resolution of the fetch batch of effect run tag. -/
inductive Event where
  | act (a : DrillAction)
  | resolve (tag : Nat) (out : Except String (List (List Row)))

/-- One step of the hook. -/
def step (s : DrillState) : Event → DrillState
  | .act a =>
    let s' := applyAction s a
    if depsOf s' = depsOf s then s' else runEffect s'
  | .resolve tag out => applyResolve s tag out

/-- A whole event trace. -/
def run (s : DrillState) (evs : List Event) : DrillState :=
  evs.foldl step s

/-- The hook state right after mount: useState initial values (lines 145-156)
followed by the first effect execution. -/
def initState (fp : Params) : DrillState :=
  runEffect
    { level := .national, selectedDiv := none, selectedDist := none,
      divisionData := [], districtData := [], popMarkers := [], ispData := [],
      loading := true, error := none, epoch := 0, requests := [],
      filterParams := fp }

-- ════════════════════════════════════════════════════════════════════════════
-- §6  FilterContext.jsx — global filter state
-- ════════════════════════════════════════════════════════════════════════════

/-- The filter selection held by FilterContext (lines 49-54): division,
district, isp, preset are strings (empty = nothing selected), start and end
date are string-or-null useState cells. -/
structure FilterState where
  division  : String
  district  : String
  isp       : String
  preset    : String
  startDate : Option String
  endDate   : Option String
deriving DecidableEq, Repr

/-- JS val || fallback on an optional argument producing a string. -/
def jsOrEmpty (val : Option String) : String :=
  match val with
  | some v => v
  | none => ""

/-- FilterContext.jsx lines 153-156: setDivision(val) stores val || the empty
string and always clears the district selection. -/
def setDivision (val : Option String) (s : FilterState) : FilterState :=
  { s with division := if jsOrEmpty val = "" then "" else jsOrEmpty val,
           district := "" }

/-- FilterContext.jsx line 158. -/
def setDistrict (val : Option String) (s : FilterState) : FilterState :=
  { s with district := if jsOrEmpty val = "" then "" else jsOrEmpty val }

/-- FilterContext.jsx line 159. -/
def setIsp (val : Option String) (s : FilterState) : FilterState :=
  { s with isp := if jsOrEmpty val = "" then "" else jsOrEmpty val }

/-- FilterContext.jsx line 160: setPreset stores the value unchanged. -/
def setPreset (val : String) (s : FilterState) : FilterState :=
  { s with preset := val }

/-- FilterContext.jsx lines 162-169. -/
def resetFilters (_s : FilterState) : FilterState :=
  { division := "", district := "", isp := "", preset := "30d",
    startDate := none, endDate := none }

/-- Two-digit zero padding. -/
def pad2 (n : Nat) : String :=
  if n < 10 then "0" ++ toString n else toString n

/-- Three-digit zero padding. -/
def pad3 (n : Nat) : String :=
  if n < 100 then "0" ++ pad2 n else toString n

/-- Civil date (year, month, day) of a day count since 1970-01-01, the
standard era-based conversion used by date libraries. -/
def civilFromDays (z0 : Int) : Int × Nat × Nat :=
  let z := z0 + 719468
  let era := z.ediv 146097
  let doe := (z.emod 146097).toNat
  let yoe := (doe - doe / 1460 + doe / 36524 - doe / 146096) / 365
  let doy := doe - (365 * yoe + yoe / 4 - yoe / 100)
  let mp := (5 * doy + 2) / 153
  let d := doy - (153 * mp + 2) / 5 + 1
  let m := if mp < 10 then mp + 3 else mp - 9
  let y := (yoe : Int) + era * 400 + (if m ≤ 2 then 1 else 0)
  (y, m, d)

/-- dayjs .toISOString(): format a UTC timestamp in epoch milliseconds as
YYYY-MM-DDTHH:mm:ss.sssZ. -/
def toISOString (ms : Int) : String :=
  let days := ms.ediv 86400000
  let msOfDay := (ms.emod 86400000).toNat
  let ymd := civilFromDays days
  toString ymd.1 ++ "-" ++ pad2 ymd.2.1 ++ "-" ++ pad2 ymd.2.2 ++ "T" ++
    pad2 (msOfDay / 3600000) ++ ":" ++ pad2 (msOfDay % 3600000 / 60000) ++ ":" ++
    pad2 (msOfDay % 60000 / 1000) ++ "." ++ pad3 (msOfDay % 1000) ++ "Z"

/-- FilterContext.jsx line 128: days looked up in the preset table, with the
nullish-coalescing default 30. -/
def presetDays (preset : String) : Nat :=
  match [("7d", 7), ("14d", 14), ("30d", 30)].lookup preset with
  | some n => n
  | none => 30

/-- FilterContext.jsx lines 123-133, the resolvedDates memo.  Timestamps are
epoch milliseconds; maxDate is the latest known data date (null until the
metadata query answers).  A relative preset subtracts whole days from maxDate
(Bangladesh has no daylight saving, so a dayjs calendar day is 86400000 ms). -/
def resolvedDates (preset : String) (maxDate : Option Int)
    (startDate endDate : Option String) : Option String × Option String :=
  if preset = "all" then (none, none)
  else if preset = "custom" then (startDate, endDate)
  else
    match maxDate with
    | none => (none, none)
    | some m =>
      (some (toISOString (m - (presetDays preset : Int) * 86400000)),
       some (toISOString m))

/-- FilterContext.jsx lines 136-144, the activeParams memo: each key is
assigned only when its source value is truthy. -/
def activeParams (s : FilterState) (maxDate : Option Int) : Params :=
  let rd := resolvedDates s.preset maxDate s.startDate s.endDate
  { division   := if s.division ≠ "" then some s.division else none
    district   := if s.district ≠ "" then some s.district else none
    isp        := if s.isp ≠ "" then some s.isp else none
    start_date := if jsTruthyOpt rd.1 then rd.1 else none
    end_date   := if jsTruthyOpt rd.2 then rd.2 else none }

/-- The URL query string entries the provider maintains, keys div, dist, isp,
range, from, to (from and to carry a trailing underscore because from is
reserved in Lean). -/
structure URLQuery where
  div   : Option String
  dist  : Option String
  isp   : Option String
  range : Option String
  from_ : Option String
  to_   : Option String
deriving DecidableEq, Repr

/-- FilterContext.jsx lines 111-120: the state-to-URL sync effect builds the
object p with only the truthy fields and replaces the search params with it. -/
def filterToURL (s : FilterState) : URLQuery :=
  { div   := if s.division ≠ "" then some s.division else none
    dist  := if s.district ≠ "" then some s.district else none
    isp   := if s.isp ≠ "" then some s.isp else none
    range := if s.preset ≠ "" then some s.preset else none
    from_ := if jsTruthyOpt s.startDate then s.startDate else none
    to_   := if jsTruthyOpt s.endDate then s.endDate else none }

/-- searchParams.get(k) || fallback: a missing or empty entry yields the
fallback string. -/
def jsGetOr (o : Option String) (fallback : String) : String :=
  match o with
  | some s => if s = "" then fallback else s
  | none => fallback

/-- searchParams.get(k) || null: a missing or empty entry yields null. -/
def jsGetOrNull (o : Option String) : Option String :=
  match o with
  | some s => if s = "" then none else some s
  | none => none

/-- FilterContext.jsx lines 49-54: the initial useState reads that decode the
URL back into a filter state (range defaults to 30d). -/
def filterFromURL (q : URLQuery) : FilterState :=
  { division  := jsGetOr q.div ""
    district  := jsGetOr q.dist ""
    isp       := jsGetOr q.isp ""
    preset    := jsGetOr q.range "30d"
    startDate := jsGetOrNull q.from_
    endDate   := jsGetOrNull q.to_ }

-- ════════════════════════════════════════════════════════════════════════════
-- §7  DrillDownMap — choropleth colour scales
-- ════════════════════════════════════════════════════════════════════════════

namespace DrillMapA

/-- First DrillDownMap variant, three-tier RAG scale for divisions:
gray for zero or missing max, red above 0.60, yellow above 0.30, else green. -/
def getViolationColor (value max : ℚ) : String :=
  if max = 0 ∨ value = 0 then "#e5e7eb"
  else
    let ratio := value / max
    if ratio > 0.60 then "#dc2626"
    else if ratio > 0.30 then "#eab308"
    else "#22c55e"

/-- First DrillDownMap variant, district scale (same thresholds and palette). -/
def getDistrictColor (value max : ℚ) : String :=
  if max = 0 ∨ value = 0 then "#e5e7eb"
  else
    let ratio := value / max
    if ratio > 0.60 then "#dc2626"
    else if ratio > 0.30 then "#eab308"
    else "#22c55e"

end DrillMapA

namespace DrillMapB

/-- Second DrillDownMap variant, four-tier red scale for divisions. -/
def getViolationColor (value max : ℚ) : String :=
  if max = 0 ∨ value = 0 then "#e5e7eb"
  else
    let ratio := value / max
    if ratio > 0.75 then "#b91c1c"
    else if ratio > 0.50 then "#ef4444"
    else if ratio > 0.25 then "#f87171"
    else "#fca5a5"

/-- Second DrillDownMap variant, four-tier orange scale for districts. -/
def getDistrictColor (value max : ℚ) : String :=
  if max = 0 ∨ value = 0 then "#fff7ed"
  else
    let ratio := value / max
    if ratio > 0.75 then "#9a3412"
    else if ratio > 0.50 then "#ea580c"
    else if ratio > 0.25 then "#fb923c"
    else "#fed7aa"

end DrillMapB

/-- Position of each colour in its ordered severity palette, 0 = neutral.
The hex codes across the palettes are distinct except the shared neutral
gray, so one ranking function covers all four scale functions. -/
def severityRank (c : String) : Nat :=
  if c = "#22c55e" then 1 else if c = "#eab308" then 2 else
  if c = "#dc2626" then 3 else
  if c = "#fca5a5" then 1 else if c = "#f87171" then 2 else
  if c = "#ef4444" then 3 else if c = "#b91c1c" then 4 else
  if c = "#fed7aa" then 1 else if c = "#fb923c" then 2 else
  if c = "#ea580c" then 3 else if c = "#9a3412" then 4 else 0

-- ════════════════════════════════════════════════════════════════════════════
-- §8  Concrete example values used by witnesses and counterexamples
-- ════════════════════════════════════════════════════════════════════════════

/-- A global filter parameter object with only an ISP selected. -/
def exFP : Params :=
  { isp := some "AmberIT", start_date := none, end_date := none,
    division := none, district := none }

/-- A global filter parameter object carrying a FilterBar district. -/
def exFPd : Params :=
  { isp := some "AmberIT", start_date := none, end_date := none,
    division := none, district := some "Gazipur" }

/-- A drill state sitting at district level with loaded regional data. -/
def exDistState : DrillState :=
  { level := .district, selectedDiv := some "Dhaka",
    selectedDist := some "Gazipur", divisionData := [],
    districtData := [("Gazipur", ⟨5, 1, 2, 1, 1⟩)], popMarkers := [],
    ispData := [], loading := false, error := none, epoch := 7,
    requests := [], filterParams := exFP }

/-- Event prefix of a rapid double drill-down: division A, then division B
before any response arrives. -/
def exDoubleDrill : List Event :=
  [.act (.drillToDiv "Dhaka"), .act (.drillToDiv "Chattogram")]

/-- A division-level fetch batch response: district rows, PoP rows, ISP rows. -/
def exDivisionOut : Except String (List (List Row)) :=
  .ok [[[("district", .str "Sirajganj"), ("total", .num 4)]], [], []]

/-- A district-rows response naming a different district, used to show that
the post-drillUp refetch overwrites districtData. -/
def exFreshOut : Except String (List (List Row)) :=
  .ok [[[("district", .str "Tangail"), ("total", .num 9)]], [], []]

/-- A filter state with an empty-string custom start date (reachable through
setStartDate since it is the raw useState setter). -/
def exBadFilter : FilterState :=
  ⟨"Dhaka", "", "", "30d", some "", none⟩

/-- A fully populated, well-formed filter selection. -/
def exGoodFilter : FilterState :=
  ⟨"Dhaka", "Gazipur", "AmberIT", "custom",
   some "2025-01-01T00:00:00.000Z", some "2025-02-01T00:00:00.000Z"⟩

-- ════════════════════════════════════════════════════════════════════════════
-- §9  Theorems
-- ════════════════════════════════════════════════════════════════════════════

/-- Left cancellation for string concatenation. -/
theorem string_append_cancel_left {a b c : String} (h : a ++ b = a ++ c) :
    b = c := by
  have h2 : (a ++ b).data = (a ++ c).data := congrArg String.data h
  rw [String.data_append, String.data_append] at h2
  exact String.ext (List.append_cancel_left h2)

/-- C1 (counterexample): two parameter objects with identical key-value pairs
in opposite insertion order produce different cache keys, so the second
lookup misses the cache. -/
theorem toKey_order_dependence_cex :
    List.Perm [("division", "Dhaka"), ("isp", "AmberIT")]
      [("isp", "AmberIT"), ("division", "Dhaka")] ∧
    toKey 87 [("division", "Dhaka"), ("isp", "AmberIT")] ≠
      toKey 87 [("isp", "AmberIT"), ("division", "Dhaka")] := by
  constructor
  · decide
  · decide

/-- C1 (amended): the cache key of toKey(cardId, params) is determined by,
and determines, the insertion-order-preserving JSON serialization of the
parameter object: two parameter objects collide on the same card exactly when
their serializations coincide.  JSON.stringify preserves insertion order, so
identical key-value sets in different orders are distinct keys (the claimed
order independence does not hold; the counterexample above exhibits it). -/
theorem toKey_determined_by_serialization (c : Nat) (p q : ParamObj) :
    toKey c p = toKey c q ↔ jsonStringifyParams p = jsonStringifyParams q := by
  constructor
  · intro h
    unfold toKey at h
    exact string_append_cancel_left h
  · intro h
    unfold toKey
    rw [h]

/-- C5: setDivision(value) stores the given value (empty for a cleared or
missing argument, per val || empty) and always clears the district
selection, leaving every other filter field untouched; hence no state with a
stale district under a changed division is reachable through this setter. -/
theorem setDivision_clears_district (val : Option String) (s : FilterState) :
    (setDivision val s).division = jsOrEmpty val ∧
    (setDivision val s).district = "" ∧
    (setDivision val s).isp = s.isp ∧
    (setDivision val s).preset = s.preset ∧
    (setDivision val s).startDate = s.startDate ∧
    (setDivision val s).endDate = s.endDate := by
  unfold setDivision
  refine ⟨?_, rfl, rfl, rfl, rfl, rfl⟩
  by_cases h : jsOrEmpty val = "" <;> simp [h]

/-- A resolution tagged with a run other than the newest one is ignored
entirely: its cancellation flag was set when the newer run started. -/
theorem step_resolve_stale (s : DrillState) (tag : Nat)
    (out : Except String (List (List Row))) (h : tag ≠ s.epoch) :
    step s (.resolve tag out) = s := by
  simp [step, applyResolve, h]

/-- C2: last-writer-wins by transition recency.  In any event trace, a fetch
resolution whose effect run has been superseded by a newer transition (its
tag differs from the epoch of the newest run at arrival time) is a complete
no-op: the trace with the stale resolution deleted reaches the identical
final state, whatever arrives afterwards.  In particular the final
divisionData/districtData/popMarkers/ispData only ever reflect the newest
transition, regardless of response arrival order. -/
theorem stale_resolve_is_ignored (s : DrillState) (pre post : List Event)
    (tag : Nat) (out : Except String (List (List Row)))
    (h : tag ≠ (run s pre).epoch) :
    run s (pre ++ Event.resolve tag out :: post) = run s (pre ++ post) := by
  have hstep : step (run s pre) (Event.resolve tag out) = run s pre :=
    step_resolve_stale _ _ _ h
  unfold run at hstep ⊢
  rw [List.foldl_append, List.foldl_append, List.foldl_cons, hstep]

/-- C2 witness: a rapid double drill-down (Dhaka, then Chattogram before any
response), where the late response of the Dhaka fetch (run 2) arrives after
the Chattogram transition (run 3): deleting the stale response changes
nothing about the final state. -/
theorem stale_resolve_is_ignored_witness :
    2 ≠ (run (initState exFP) exDoubleDrill).epoch ∧
    run (initState exFP) (exDoubleDrill ++ Event.resolve 2 exDivisionOut :: []) =
      run (initState exFP) (exDoubleDrill ++ []) :=
  ⟨by decide,
   stale_resolve_is_ignored (initState exFP) exDoubleDrill [] 2 exDivisionOut
     (by decide)⟩

/-- C3 (counterexample): navigating up from district level does refetch the
district aggregate card — the division-level effect branch issues
REG_R2_DIST_VIOLATIONS again — and once that fresh response resolves it
overwrites districtData, so the claimed no-refetch retention fails. -/
theorem drillUp_refetches_district_cex :
    (CardId.REG_R2_DIST_VIOLATIONS, divisionLevelParams exFP "Dhaka") ∈
      (step exDistState (.act .drillUp)).requests ∧
    (run exDistState [.act .drillUp, .resolve 8 exFreshOut]).districtData ≠
      exDistState.districtData := by
  constructor
  · decide
  · decide

/-- C3 (amended): drillUp from district level keeps districtData in place
through the transition (the action clears only the district selection and
marker/ISP consumers read the re-issued fetches), and the re-run effect
issues the marker and provider fetches scoped to the parent division — but
it also re-issues the district-aggregate fetch with the same division-scoped
parameters, whose response overwrites districtData with a freshly fetched
copy. -/
theorem drillUp_keeps_districtData_reissues_fetches (s : DrillState)
    (d : String) (h1 : s.level = .district) (h2 : s.selectedDiv = some d)
    (h3 : d ≠ "") :
    (step s (.act .drillUp)).districtData = s.districtData ∧
    (step s (.act .drillUp)).level = .division ∧
    (step s (.act .drillUp)).selectedDist = none ∧
    (step s (.act .drillUp)).requests =
      [(CardId.REG_R2_DIST_VIOLATIONS, divisionLevelParams s.filterParams d),
       (CardId.REG_R2_POP_MARKERS,     divisionLevelParams s.filterParams d),
       (CardId.REG_R2_ISP_BY_AREA,     divisionLevelParams s.filterParams d)] := by
  obtain ⟨lv, sd, st, dv, dt, pm, isp, ld, er, ep, rq, fp⟩ := s
  replace h1 : lv = Level.district := h1
  replace h2 : sd = some d := h2
  subst h1; subst h2
  simp [step, applyAction, depsOf, runEffect, effectRequests, h3]

/-- C3 witness: the amended statement at the concrete district-level state. -/
theorem drillUp_keeps_districtData_witness :
    (exDistState.level = .district ∧ exDistState.selectedDiv = some "Dhaka" ∧
      "Dhaka" ≠ "") ∧
    ((step exDistState (.act .drillUp)).districtData = exDistState.districtData ∧
     (step exDistState (.act .drillUp)).level = .division ∧
     (step exDistState (.act .drillUp)).selectedDist = none ∧
     (step exDistState (.act .drillUp)).requests =
       [(CardId.REG_R2_DIST_VIOLATIONS, divisionLevelParams exDistState.filterParams "Dhaka"),
        (CardId.REG_R2_POP_MARKERS,     divisionLevelParams exDistState.filterParams "Dhaka"),
        (CardId.REG_R2_ISP_BY_AREA,     divisionLevelParams exDistState.filterParams "Dhaka")]) :=
  ⟨⟨rfl, rfl, by decide⟩,
   drillUp_keeps_districtData_reissues_fetches exDistState "Dhaka" rfl rfl
     (by decide)⟩

/-- C4 (counterexample): at division level the parameters actually sent are
not the global filters overlaid by the drill selection — the global district
key is deleted rather than forwarded.  With a FilterBar district present,
the sent parameter object differs from the overlay semantics. -/
theorem division_level_drops_global_district_cex :
    (divisionLevelParams exFPd "Dhaka").district = none ∧
    exFPd.district = some "Gazipur" ∧
    divisionLevelParams exFPd "Dhaka" ≠
      overlayDrillParams exFPd (some "Dhaka") none := by
  refine ⟨rfl, rfl, ?_⟩
  decide

/-- C4 (amended): drill-selected values always override same-key global
filter values, and a global filter change re-issues the active level.  At
district level the sent parameters are exactly the global parameters
overlaid with the drill division and district; at division level the drill
division overrides and the district key is removed (not forwarded) since it
is not applicable there; the non-overridden keys (isp, start_date, end_date)
always pass through from the global filters.  Any change of the global
filter object re-runs the effect (its dependency key changes) and re-issues
the current level with the new parameters merged in. -/
theorem drill_overrides_global_filters :
    (∀ (fp : Params) (d t : String),
      districtLevelParams fp d t = overlayDrillParams fp (some d) (some t) ∧
      (districtLevelParams fp d t).division = some (toDbDiv d) ∧
      (districtLevelParams fp d t).district = some (toDbDist t) ∧
      (districtLevelParams fp d t).isp = fp.isp ∧
      (districtLevelParams fp d t).start_date = fp.start_date ∧
      (districtLevelParams fp d t).end_date = fp.end_date ∧
      (divisionLevelParams fp d).division = some (toDbDiv d) ∧
      (divisionLevelParams fp d).district = none ∧
      (divisionLevelParams fp d).isp = fp.isp ∧
      (divisionLevelParams fp d).start_date = fp.start_date ∧
      (divisionLevelParams fp d).end_date = fp.end_date) ∧
    (∀ (s : DrillState) (fp' : Params), fp' ≠ s.filterParams →
      (step s (.act (.filterChange fp'))).requests =
        effectRequests { s with filterParams := fp' } ∧
      (step s (.act (.filterChange fp'))).epoch = s.epoch + 1) := by
  constructor
  · intro fp d t
    exact ⟨rfl, rfl, rfl, rfl, rfl, rfl, rfl, rfl, rfl, rfl, rfl⟩
  · intro s fp' h
    have hdep : depsOf (applyAction s (.filterChange fp')) ≠ depsOf s := by
      simp [depsOf, applyAction, Prod.ext_iff]
      intro hh
      exact absurd hh h
    simp only [applyAction] at hdep
    simp [step, applyAction, runEffect, hdep]

/-- C4 witness: a filter change at the concrete district-level drill state. -/
theorem drill_overrides_global_filters_witness :
    exFPd ≠ exDistState.filterParams ∧
    ((step exDistState (.act (.filterChange exFPd))).requests =
       effectRequests { exDistState with filterParams := exFPd } ∧
     (step exDistState (.act (.filterChange exFPd))).epoch =
       exDistState.epoch + 1) :=
  ⟨by decide, drill_overrides_global_filters.2 exDistState exFPd (by decide)⟩

/-- C7: a rejection of the current (not superseded) fetch batch sets the
recoverable error message (with the default text for an empty message, per
e.message || fallback) and clears loading, while the drill position (level,
selectedDiv, selectedDist) and all loaded data stay exactly as they were;
nothing escapes the catch, and the drill state is never unwound.  Rejections
include the synchronous not-configured guard of fetchCard, whose message is
exercised in the witness below. -/
theorem fetch_failure_recoverable (s : DrillState) (tag : Nat) (msg : String)
    (h : tag = s.epoch) :
    (step s (.resolve tag (.error msg))).level = s.level ∧
    (step s (.resolve tag (.error msg))).selectedDiv = s.selectedDiv ∧
    (step s (.resolve tag (.error msg))).selectedDist = s.selectedDist ∧
    (step s (.resolve tag (.error msg))).divisionData = s.divisionData ∧
    (step s (.resolve tag (.error msg))).districtData = s.districtData ∧
    (step s (.resolve tag (.error msg))).popMarkers = s.popMarkers ∧
    (step s (.resolve tag (.error msg))).ispData = s.ispData ∧
    (step s (.resolve tag (.error msg))).epoch = s.epoch ∧
    (step s (.resolve tag (.error msg))).error =
      some (if msg = "" then "Failed to load map data" else msg) ∧
    (step s (.resolve tag (.error msg))).loading = false := by
  subst h
  simp [step, applyResolve]

/-- C7 witness: the not-configured-card rejection at the concrete
district-level state (its tag is the current epoch). -/
theorem fetch_failure_recoverable_witness :
    (7 = exDistState.epoch) ∧
    fetchCardGuard none =
      Except.error "Card ID not configured — run setup_metabase.py first" ∧
    ((step exDistState (.resolve 7 (.error "Card ID not configured — run setup_metabase.py first"))).level = exDistState.level ∧
     (step exDistState (.resolve 7 (.error "Card ID not configured — run setup_metabase.py first"))).selectedDiv = exDistState.selectedDiv ∧
     (step exDistState (.resolve 7 (.error "Card ID not configured — run setup_metabase.py first"))).selectedDist = exDistState.selectedDist ∧
     (step exDistState (.resolve 7 (.error "Card ID not configured — run setup_metabase.py first"))).divisionData = exDistState.divisionData ∧
     (step exDistState (.resolve 7 (.error "Card ID not configured — run setup_metabase.py first"))).districtData = exDistState.districtData ∧
     (step exDistState (.resolve 7 (.error "Card ID not configured — run setup_metabase.py first"))).popMarkers = exDistState.popMarkers ∧
     (step exDistState (.resolve 7 (.error "Card ID not configured — run setup_metabase.py first"))).ispData = exDistState.ispData ∧
     (step exDistState (.resolve 7 (.error "Card ID not configured — run setup_metabase.py first"))).epoch = exDistState.epoch ∧
     (step exDistState (.resolve 7 (.error "Card ID not configured — run setup_metabase.py first"))).error =
       some (if "Card ID not configured — run setup_metabase.py first" = "" then "Failed to load map data" else "Card ID not configured — run setup_metabase.py first") ∧
     (step exDistState (.resolve 7 (.error "Card ID not configured — run setup_metabase.py first"))).loading = false) :=
  ⟨rfl, rfl,
   fetch_failure_recoverable exDistState 7
     "Card ID not configured — run setup_metabase.py first" rfl⟩

/-- A string with a Z appended is never empty. -/
theorem append_z_ne_empty (s : String) : s ++ "Z" ≠ "" := by
  intro h
  have h2 : (s ++ "Z").data = ("" : String).data := congrArg String.data h
  rw [String.data_append] at h2
  simp at h2

/-- The ISO formatter never returns an empty string. -/
theorem toISOString_ne_empty (ms : Int) : toISOString ms ≠ "" := by
  unfold toISOString
  exact append_z_ne_empty _

/-- The truthiness guard of activeParams never stores an empty string. -/
theorem keep_guard_ne_empty (o : Option String) :
    (if jsTruthyOpt o then o else none) ≠ some "" := by
  cases o with
  | none => simp [jsTruthyOpt]
  | some v => by_cases h : v = "" <;> simp [jsTruthyOpt, h]

/-- The truthiness guard stores nothing exactly for a falsy source value. -/
theorem keep_guard_none_iff (o : Option String) :
    (if jsTruthyOpt o then o else none) = none ↔ jsTruthyOpt o = false := by
  cases o with
  | none => simp [jsTruthyOpt]
  | some v => by_cases h : v = "" <;> simp [jsTruthyOpt, h]

/-- The truthiness guard passes a truthy source value through. -/
theorem keep_guard_eq_of_truthy (o : Option String)
    (h : jsTruthyOpt o = true) : (if jsTruthyOpt o then o else none) = o := by
  simp [h]

/-- C6: the activeParams projection carries only non-empty fields.  Each of
division, district, isp is present exactly when the corresponding selection
is non-empty (and then equals it); no field ever holds an empty string;
start_date and end_date are present exactly when the derived resolved date
is truthy, equal it when present, and for a relative preset with a known
maxDate they are always present (the ISO rendering is never empty). -/
theorem activeParams_only_nonempty_fields (s : FilterState) (md : Option Int) :
    ((activeParams s md).division = if s.division = "" then none else some s.division) ∧
    ((activeParams s md).district = if s.district = "" then none else some s.district) ∧
    ((activeParams s md).isp = if s.isp = "" then none else some s.isp) ∧
    (activeParams s md).division ≠ some "" ∧
    (activeParams s md).district ≠ some "" ∧
    (activeParams s md).isp ≠ some "" ∧
    (activeParams s md).start_date ≠ some "" ∧
    (activeParams s md).end_date ≠ some "" ∧
    ((activeParams s md).start_date = none ↔
      jsTruthyOpt (resolvedDates s.preset md s.startDate s.endDate).1 = false) ∧
    ((activeParams s md).end_date = none ↔
      jsTruthyOpt (resolvedDates s.preset md s.startDate s.endDate).2 = false) ∧
    (jsTruthyOpt (resolvedDates s.preset md s.startDate s.endDate).1 = true →
      (activeParams s md).start_date =
        (resolvedDates s.preset md s.startDate s.endDate).1) ∧
    (jsTruthyOpt (resolvedDates s.preset md s.startDate s.endDate).2 = true →
      (activeParams s md).end_date =
        (resolvedDates s.preset md s.startDate s.endDate).2) ∧
    (∀ m : Int, s.preset ≠ "all" → s.preset ≠ "custom" → md = some m →
      (activeParams s md).start_date =
          some (toISOString (m - (presetDays s.preset : Int) * 86400000)) ∧
      (activeParams s md).end_date = some (toISOString m)) := by
  have hstart : (activeParams s md).start_date =
      if jsTruthyOpt (resolvedDates s.preset md s.startDate s.endDate).1
      then (resolvedDates s.preset md s.startDate s.endDate).1 else none := rfl
  have hend : (activeParams s md).end_date =
      if jsTruthyOpt (resolvedDates s.preset md s.startDate s.endDate).2
      then (resolvedDates s.preset md s.startDate s.endDate).2 else none := rfl
  refine ⟨?_, ?_, ?_, ?_, ?_, ?_, ?_, ?_, ?_, ?_, ?_, ?_, ?_⟩
  · by_cases h : s.division = "" <;> simp [activeParams, h]
  · by_cases h : s.district = "" <;> simp [activeParams, h]
  · by_cases h : s.isp = "" <;> simp [activeParams, h]
  · by_cases h : s.division = "" <;> simp [activeParams, h]
  · by_cases h : s.district = "" <;> simp [activeParams, h]
  · by_cases h : s.isp = "" <;> simp [activeParams, h]
  · rw [hstart]; exact keep_guard_ne_empty _
  · rw [hend]; exact keep_guard_ne_empty _
  · rw [hstart]; exact keep_guard_none_iff _
  · rw [hend]; exact keep_guard_none_iff _
  · intro h; rw [hstart]; exact keep_guard_eq_of_truthy _ h
  · intro h; rw [hend]; exact keep_guard_eq_of_truthy _ h
  · intro m h1 h2 h3
    subst h3
    have hres : resolvedDates s.preset (some m) s.startDate s.endDate =
        (some (toISOString (m - (presetDays s.preset : Int) * 86400000)),
         some (toISOString m)) := by
      simp [resolvedDates, h1, h2]
    constructor
    · rw [hstart, hres]
      simp [jsTruthyOpt, toISOString_ne_empty]
    · rw [hend, hres]
      simp [jsTruthyOpt, toISOString_ne_empty]

/-- C6 witness: a concrete relative-preset selection with a known maxDate,
discharging the relative-date hypotheses. -/
theorem activeParams_only_nonempty_fields_witness :
    (exBadFilter.preset ≠ "all" ∧ exBadFilter.preset ≠ "custom") ∧
    (activeParams exBadFilter (some 1750000000000)).start_date =
        some (toISOString (1750000000000 - (presetDays exBadFilter.preset : Int) * 86400000)) ∧
    (activeParams exBadFilter (some 1750000000000)).end_date =
        some (toISOString 1750000000000) :=
  ⟨⟨by decide, by decide⟩,
   (activeParams_only_nonempty_fields exBadFilter
      (some 1750000000000)).2.2.2.2.2.2.2.2.2.2.2.2
     1750000000000 (by decide) (by decide) rfl⟩

/-- C8 (counterexample): the claimed round-trips fail on names drawn from
the opposite vocabulary: the GeoJSON name Bogra maps to the DB name Bogura
(not back to itself), and the DB name Bogura maps to Bogra. -/
theorem name_mapping_roundtrip_cex :
    toGeoDist "Bogra" = "Bogra" ∧
    toDbDist (toGeoDist "Bogra") = "Bogura" ∧
    ("Bogura" : String) ≠ "Bogra" ∧
    toDbDist "Bogura" = "Bogura" ∧
    toGeoDist (toDbDist "Bogura") = "Bogra" := by
  refine ⟨?_, ?_, ?_, ?_, ?_⟩ <;> decide

/-- Names outside the DB-side column pass through toGeoDist unchanged. -/
theorem toGeoDist_off (n : String) (h : n ∉ distDbNames) : toGeoDist n = n := by
  unfold toGeoDist
  have hf : DIST_DB_TO_GEO.find? (fun kv => kv.1 = n) = none := by
    apply List.find?_eq_none.mpr
    intro kv hkv
    simp only [decide_eq_true_eq]
    intro he
    exact h (he ▸ List.mem_map_of_mem Prod.fst hkv)
  rw [hf]

/-- Names outside the GeoJSON-side column pass through toDbDist unchanged. -/
theorem toDbDist_off (g : String) (h : g ∉ distGeoNames) : toDbDist g = g := by
  unfold toDbDist
  have hf : DIST_DB_TO_GEO.find? (fun kv => kv.2 = g) = none := by
    apply List.find?_eq_none.mpr
    intro kv hkv
    simp only [decide_eq_true_eq]
    intro he
    exact h (he ▸ List.mem_map_of_mem Prod.snd hkv)
  rw [hf]

/-- C8 (amended): the mapping is exact-match and total — any name absent
from the relevant column of the table passes through unchanged — and the two
directions are mutually inverse on each vocabulary: toDbDist after toGeoDist
is the identity on every name that is not a GeoJSON-side table entry, and
toGeoDist after toDbDist is the identity on every name that is not a
DB-side table entry.  (On crossed-vocabulary names the round-trips fail, as
the counterexample shows, so the unrestricted claim is false.) -/
theorem name_mapping_total_and_invertible :
    (∀ n, n ∉ distDbNames → toGeoDist n = n) ∧
    (∀ g, g ∉ distGeoNames → toDbDist g = g) ∧
    (∀ n, n ∉ distGeoNames → toDbDist (toGeoDist n) = n) ∧
    (∀ g, g ∉ distDbNames → toGeoDist (toDbDist g) = g) := by
  refine ⟨toGeoDist_off, toDbDist_off, ?_, ?_⟩
  · intro n hn
    by_cases hk : n ∈ distDbNames
    · simp only [distDbNames, DIST_DB_TO_GEO, List.map_cons, List.map_nil,
        List.mem_cons, List.not_mem_nil, or_false] at hk
      rcases hk with rfl | rfl | rfl | rfl | rfl | rfl | rfl | rfl | rfl <;> decide
    · rw [toGeoDist_off n hk, toDbDist_off n hn]
  · intro g hg
    by_cases hv : g ∈ distGeoNames
    · simp only [distGeoNames, DIST_DB_TO_GEO, List.map_cons, List.map_nil,
        List.mem_cons, List.not_mem_nil, or_false] at hv
      rcases hv with rfl | rfl | rfl | rfl | rfl | rfl | rfl | rfl | rfl <;> decide
    · rw [toDbDist_off g hv, toGeoDist_off g hg]

/-- C8 witness: an unmapped name passes through both directions and
round-trips both ways. -/
theorem name_mapping_witness :
    ("Dhaka" ∉ distDbNames ∧ "Dhaka" ∉ distGeoNames) ∧
    toGeoDist "Dhaka" = "Dhaka" ∧
    toDbDist "Dhaka" = "Dhaka" ∧
    toDbDist (toGeoDist "Dhaka") = "Dhaka" ∧
    toGeoDist (toDbDist "Dhaka") = "Dhaka" :=
  ⟨⟨by decide, by decide⟩,
   name_mapping_total_and_invertible.1 "Dhaka" (by decide),
   name_mapping_total_and_invertible.2.1 "Dhaka" (by decide),
   name_mapping_total_and_invertible.2.2.1 "Dhaka" (by decide),
   name_mapping_total_and_invertible.2.2.2 "Dhaka" (by decide)⟩

/-- Encoding and decoding a non-empty plain string field is the identity. -/
theorem roundtrip_str (v : String) :
    jsGetOr (if v ≠ "" then some v else none) "" = v := by
  by_cases h : v = "" <;> simp [jsGetOr, h]

/-- Encoding and decoding the preset is the identity when it is non-empty. -/
theorem roundtrip_preset (v : String) (h : v ≠ "") :
    jsGetOr (if v ≠ "" then some v else none) "30d" = v := by
  simp [jsGetOr, h]

/-- Encoding and decoding a date cell is the identity when it is not the
empty string. -/
theorem roundtrip_date (o : Option String) (h : o ≠ some "") :
    jsGetOrNull (if jsTruthyOpt o then o else none) = o := by
  cases o with
  | none => simp [jsTruthyOpt, jsGetOrNull]
  | some v =>
    have hv : v ≠ "" := fun hh => h (by rw [hh])
    simp [jsTruthyOpt, hv, jsGetOrNull]

/-- C9 (amended): encoding the filter state into the URL query entries and
decoding it back through the initial-state reads reproduces the identical
selection for every state whose preset is non-empty and whose custom dates
are null or non-empty — which is every selection the UI produces.  A state
holding an empty-string date or preset (reachable through the raw setters)
decodes to its canonical equivalent instead, as the counterexample shows. -/
theorem url_roundtrip (s : FilterState) (hp : s.preset ≠ "")
    (hs : s.startDate ≠ some "") (he : s.endDate ≠ some "") :
    filterFromURL (filterToURL s) = s := by
  obtain ⟨dv, dt, isp, pr, sd, ed⟩ := s
  replace hp : pr ≠ "" := hp
  replace hs : sd ≠ some "" := hs
  replace he : ed ≠ some "" := he
  simp only [filterToURL, filterFromURL, FilterState.mk.injEq]
  exact ⟨roundtrip_str dv, roundtrip_str dt, roundtrip_str isp,
         roundtrip_preset pr hp, roundtrip_date sd hs, roundtrip_date ed he⟩

/-- C9 (counterexample): a selection holding an empty-string custom start
date — reachable through setStartDate, which stores its argument raw — is
encoded as an absent entry and decodes back to null, not to the empty
string, so the unrestricted round-trip claim fails. -/
theorem url_roundtrip_cex :
    filterFromURL (filterToURL exBadFilter) ≠ exBadFilter := by decide

/-- C9 witness: a fully populated well-formed selection round-trips. -/
theorem url_roundtrip_witness :
    (exGoodFilter.preset ≠ "" ∧ exGoodFilter.startDate ≠ some "" ∧
      exGoodFilter.endDate ≠ some "") ∧
    filterFromURL (filterToURL exGoodFilter) = exGoodFilter :=
  ⟨⟨by decide, by decide, by decide⟩,
   url_roundtrip exGoodFilter (by decide) (by decide) (by decide)⟩

/-- Monotonicity of the first variant division scale on positive values. -/
theorem mapA_violation_mono {v1 v2 mx : ℚ} (hm : 0 < mx) (h1 : 0 < v1)
    (h12 : v1 ≤ v2) :
    severityRank (DrillMapA.getViolationColor v1 mx) ≤
      severityRank (DrillMapA.getViolationColor v2 mx) := by
  have h2 : 0 < v2 := lt_of_lt_of_le h1 h12
  have hr : v1 / mx ≤ v2 / mx := by gcongr
  have hn1 : ¬(mx = 0 ∨ v1 = 0) := by push_neg; exact ⟨ne_of_gt hm, ne_of_gt h1⟩
  have hn2 : ¬(mx = 0 ∨ v2 = 0) := by push_neg; exact ⟨ne_of_gt hm, ne_of_gt h2⟩
  simp only [DrillMapA.getViolationColor]
  rw [if_neg hn1, if_neg hn2]
  simp only [gt_iff_lt]
  split_ifs <;> first | decide | linarith

/-- Monotonicity of the first variant district scale on positive values. -/
theorem mapA_district_mono {v1 v2 mx : ℚ} (hm : 0 < mx) (h1 : 0 < v1)
    (h12 : v1 ≤ v2) :
    severityRank (DrillMapA.getDistrictColor v1 mx) ≤
      severityRank (DrillMapA.getDistrictColor v2 mx) := by
  have h2 : 0 < v2 := lt_of_lt_of_le h1 h12
  have hr : v1 / mx ≤ v2 / mx := by gcongr
  have hn1 : ¬(mx = 0 ∨ v1 = 0) := by push_neg; exact ⟨ne_of_gt hm, ne_of_gt h1⟩
  have hn2 : ¬(mx = 0 ∨ v2 = 0) := by push_neg; exact ⟨ne_of_gt hm, ne_of_gt h2⟩
  simp only [DrillMapA.getDistrictColor]
  rw [if_neg hn1, if_neg hn2]
  simp only [gt_iff_lt]
  split_ifs <;> first | decide | linarith

/-- Monotonicity of the second variant division scale on positive values. -/
theorem mapB_violation_mono {v1 v2 mx : ℚ} (hm : 0 < mx) (h1 : 0 < v1)
    (h12 : v1 ≤ v2) :
    severityRank (DrillMapB.getViolationColor v1 mx) ≤
      severityRank (DrillMapB.getViolationColor v2 mx) := by
  have h2 : 0 < v2 := lt_of_lt_of_le h1 h12
  have hr : v1 / mx ≤ v2 / mx := by gcongr
  have hn1 : ¬(mx = 0 ∨ v1 = 0) := by push_neg; exact ⟨ne_of_gt hm, ne_of_gt h1⟩
  have hn2 : ¬(mx = 0 ∨ v2 = 0) := by push_neg; exact ⟨ne_of_gt hm, ne_of_gt h2⟩
  simp only [DrillMapB.getViolationColor]
  rw [if_neg hn1, if_neg hn2]
  simp only [gt_iff_lt]
  split_ifs <;> first | decide | linarith

/-- Monotonicity of the second variant district scale on positive values. -/
theorem mapB_district_mono {v1 v2 mx : ℚ} (hm : 0 < mx) (h1 : 0 < v1)
    (h12 : v1 ≤ v2) :
    severityRank (DrillMapB.getDistrictColor v1 mx) ≤
      severityRank (DrillMapB.getDistrictColor v2 mx) := by
  have h2 : 0 < v2 := lt_of_lt_of_le h1 h12
  have hr : v1 / mx ≤ v2 / mx := by gcongr
  have hn1 : ¬(mx = 0 ∨ v1 = 0) := by push_neg; exact ⟨ne_of_gt hm, ne_of_gt h1⟩
  have hn2 : ¬(mx = 0 ∨ v2 = 0) := by push_neg; exact ⟨ne_of_gt hm, ne_of_gt h2⟩
  simp only [DrillMapB.getDistrictColor]
  rw [if_neg hn1, if_neg hn2]
  simp only [gt_iff_lt]
  split_ifs <;> first | decide | linarith

/-- C10: for every positive maximum the four choropleth scale functions map
value 0 to their neutral colour, and each is monotone in the value: a larger
value (hence a larger ratio value/max) maps to an equal-or-more-alarming
colour in its ordered severity palette. -/
theorem color_scale_monotone (mx v1 v2 : ℚ) (hm : 0 < mx) (h1 : 0 < v1)
    (h12 : v1 ≤ v2) :
    (DrillMapA.getViolationColor 0 mx = "#e5e7eb" ∧
     DrillMapA.getDistrictColor 0 mx = "#e5e7eb" ∧
     DrillMapB.getViolationColor 0 mx = "#e5e7eb" ∧
     DrillMapB.getDistrictColor 0 mx = "#fff7ed") ∧
    severityRank (DrillMapA.getViolationColor v1 mx) ≤
      severityRank (DrillMapA.getViolationColor v2 mx) ∧
    severityRank (DrillMapA.getDistrictColor v1 mx) ≤
      severityRank (DrillMapA.getDistrictColor v2 mx) ∧
    severityRank (DrillMapB.getViolationColor v1 mx) ≤
      severityRank (DrillMapB.getViolationColor v2 mx) ∧
    severityRank (DrillMapB.getDistrictColor v1 mx) ≤
      severityRank (DrillMapB.getDistrictColor v2 mx) := by
  refine ⟨⟨?_, ?_, ?_, ?_⟩, mapA_violation_mono hm h1 h12,
    mapA_district_mono hm h1 h12, mapB_violation_mono hm h1 h12,
    mapB_district_mono hm h1 h12⟩
  · simp [DrillMapA.getViolationColor]
  · simp [DrillMapA.getDistrictColor]
  · simp [DrillMapB.getViolationColor]
  · simp [DrillMapB.getDistrictColor]

/-- C10 witness: concrete values 2 and 9 against a maximum of 10. -/
theorem color_scale_monotone_witness :
    ((0:ℚ) < 10 ∧ (0:ℚ) < 2 ∧ (2:ℚ) ≤ 9) ∧
    ((DrillMapA.getViolationColor 0 10 = "#e5e7eb" ∧
      DrillMapA.getDistrictColor 0 10 = "#e5e7eb" ∧
      DrillMapB.getViolationColor 0 10 = "#e5e7eb" ∧
      DrillMapB.getDistrictColor 0 10 = "#fff7ed") ∧
     severityRank (DrillMapA.getViolationColor 2 10) ≤
       severityRank (DrillMapA.getViolationColor 9 10) ∧
     severityRank (DrillMapA.getDistrictColor 2 10) ≤
       severityRank (DrillMapA.getDistrictColor 9 10) ∧
     severityRank (DrillMapB.getViolationColor 2 10) ≤
       severityRank (DrillMapB.getViolationColor 9 10) ∧
     severityRank (DrillMapB.getDistrictColor 2 10) ≤
       severityRank (DrillMapB.getDistrictColor 9 10)) :=
  ⟨⟨by norm_num, by norm_num, by norm_num⟩,
   color_scale_monotone 10 2 9 (by norm_num) (by norm_num) (by norm_num)⟩
